import Mathlib

/-
Verification of the aztec-connect slice: the service-worker dispatch frontend
(ServiceWorkerFrontend.initComponents), the contract deployment selector
(deploy_contracts.ts) and the defi form validation (defi_form_validation.ts),
shallowly embedded in Lean 4.
-/

namespace Aztec

/-- Options object for the banana core sdk (BananaCoreSdkOptions):
a configuration object with an optional numWorkers field. -/
structure BananaCoreSdkOptions where
  numWorkers : Option Nat

/-- Modelled from the spec: getNumWorkers is imported by the frontend from
../get_num_workers, a module not present under src/. Per the spec it returns
the platform-reported default parallelism, which we pass in as a parameter. -/
def getNumWorkers (platformParallelism : Nat) : Nat :=
  platformParallelism

/-- Serializable values carried in message args: the options object, a nested
dispatch message, a string or a number. -/
inductive Val where
  | options (o : BananaCoreSdkOptions)
  | msg (fn : String) (args : List Val)
  | str (s : String)
  | num (n : Nat)

/-- A dispatch message as sent over the transport and between dispatch
objects: a function name together with an ordered argument list. -/
structure DispatchMsg where
  fn : String
  args : List Val

/-- Modelled from the spec: the error reported by the remote peer when its
handler failed, carrying the remote-reported error kind and message. -/
structure RemoteError where
  kind : String
  message : String

/-- Modelled from the spec: the TransportClient is imported by the frontend
from ../transport, a module not present under src/. Per the spec, request
sends a message to the peer and resolves with the reply or rejects with the
reported error. We characterise the peer by its response function. -/
structure TransportClient where
  respond : DispatchMsg → Except RemoteError Val

/-- A transport request: returns the list of messages actually sent on the
channel for this call (always the singleton of the given message) together
with the settlement of the call. -/
def TransportClient.request (t : TransportClient) (m : DispatchMsg) :
    List DispatchMsg × Except RemoteError Val :=
  ([m], t.respond m)

/-- Modelled from the spec: the WorkerPool is imported from barretenberg/wasm,
not present under src/. Per the spec it is constructed with a pool size N and
exposes size(); WorkerPool.new with argument n yields a pool of size n. -/
structure WorkerPool where
  size : Nat

/-- Constructor of the worker pool, mirroring WorkerPool.new(wasm, n). -/
def WorkerPool.new (n : Nat) : WorkerPool :=
  ⟨n⟩

/-- Modelled from the spec: JobQueueDispatch is imported from ../job_queue,
not present under src/. It is a Dispatcher proxy: given a method name plus an
ordered argument list it produces one request message handed to the forward
function supplied at construction, and settles with that call. -/
structure JobQueueDispatchObj where
  forward : DispatchMsg → List DispatchMsg × Except RemoteError Val

/-- A method invocation on the job-queue dispatch object: forwards the
message built from the method name and args. -/
def JobQueueDispatchObj.call (q : JobQueueDispatchObj) (fn : String)
    (args : List Val) : List DispatchMsg × Except RemoteError Val :=
  q.forward { fn := fn, args := args }

/-- Events emitted by the core sdk; DESTROYED is the session-teardown event. -/
inductive SdkEvent where
  | DESTROYED
  | other (name : String)

/-- The effect a registered event handler performs, as far as the transport
is concerned: the handler at line 51 closes the transport client. -/
inductive HandlerAction where
  | closeTransport
  | noEffect

/-- Modelled from the spec: BananaCoreSdk is imported from ./banana_core_sdk,
not present under src/. It is a Dispatcher proxy over the serialized core sdk
interface: method calls are forwarded through the function supplied at
construction, and it keeps a local event-subscription list on which the
frontend registers handlers. -/
structure BananaCoreSdk where
  forward : DispatchMsg → List DispatchMsg × Except RemoteError Val
  listeners : List (SdkEvent × HandlerAction)

/-- Registering a listener on the core sdk, mirroring coreSdk.on(event, handler). -/
def BananaCoreSdk.on (s : BananaCoreSdk) (e : SdkEvent) (h : HandlerAction) :
    BananaCoreSdk :=
  { forward := s.forward, listeners := s.listeners ++ [(e, h)] }

/-- A method invocation on the core sdk proxy. -/
def BananaCoreSdk.call (s : BananaCoreSdk) (fn : String) (args : List Val) :
    List DispatchMsg × Except RemoteError Val :=
  s.forward { fn := fn, args := args }

/-- Modelled from the spec: CoreSdkClientStub is imported from ../../core_sdk,
not present under src/. It wraps the serialized interface into the session
object handed to the embedding application, delegating method calls and
events to the wrapped interface. -/
structure CoreSdkClientStub where
  inner : BananaCoreSdk

/-- A method invocation on the client stub delegates to the wrapped proxy. -/
def CoreSdkClientStub.call (s : CoreSdkClientStub) (fn : String)
    (args : List Val) : List DispatchMsg × Except RemoteError Val :=
  s.inner.call fn args

/-- The event subscriptions visible through the client stub. -/
def CoreSdkClientStub.events (s : CoreSdkClientStub) :
    List (SdkEvent × HandlerAction) :=
  s.inner.listeners

/-- The object initComponents resolves with: { coreSdk: new CoreSdkClientStub(this.coreSdk) },
a single-field object holding the session stub. -/
structure InitResult where
  coreSdk : CoreSdkClientStub

/-- One step of the initComponents body, in program order. -/
inductive Step where
  | transportRequest (fn : String) (args : List Val)
  | responseReceived (fn : String)
  | constructWasm
  | constructWorkerPool (size : Nat)
  | constructPedersen
  | constructPippenger
  | constructFftFactory
  | constructJobQueueDispatch
  | constructJobQueueWorker
  | constructCoreSdk
  | registerDestroyedHandler
  | registerEventMsgHandler

/-- The outcome of running initComponents: the ordered trace of its steps and
the components it wires up, together with its resolved value. -/
structure InitOutcome where
  trace : List Step
  workerPool : WorkerPool
  jobQueue : JobQueueDispatchObj
  coreSdk : BananaCoreSdk
  result : InitResult

/-- Embedding of ServiceWorkerFrontend.initComponents (src/unnamed/part_001,
lines 22 to 57). The body first awaits
transportClient.request({ fn: initComponents, args: [options] }), then reads
numWorkers from options with default getNumWorkers(), builds the wasm, the
worker pool, the three pooled wrappers, the job-queue dispatch whose forward
function wraps each message as { fn: jobQueueDispatch, args: [msg] }, the
job-queue worker, the core sdk proxy whose forward function wraps each
message as { fn: coreSdkDispatch, args: [msg] }, registers the DESTROYED
handler that closes the transport and the event_msg handler, and resolves
with { coreSdk: new CoreSdkClientStub(coreSdk) }. -/
def ServiceWorkerFrontend.initComponents (platformParallelism : Nat)
    (transportClient : TransportClient) (options : BananaCoreSdkOptions) :
    InitOutcome :=
  let numWorkers := options.numWorkers.getD (getNumWorkers platformParallelism)
  let workerPool := WorkerPool.new numWorkers
  let jobQueue : JobQueueDispatchObj :=
    ⟨fun m => transportClient.request { fn := "jobQueueDispatch", args := [Val.msg m.fn m.args] }⟩
  let coreSdk0 : BananaCoreSdk :=
    ⟨fun m => transportClient.request { fn := "coreSdkDispatch", args := [Val.msg m.fn m.args] }, []⟩
  let coreSdk := coreSdk0.on SdkEvent.DESTROYED HandlerAction.closeTransport
  { trace :=
      [Step.transportRequest "initComponents" [Val.options options],
       Step.responseReceived "initComponents",
       Step.constructWasm,
       Step.constructWorkerPool numWorkers,
       Step.constructPedersen,
       Step.constructPippenger,
       Step.constructFftFactory,
       Step.constructJobQueueDispatch,
       Step.constructJobQueueWorker,
       Step.constructCoreSdk,
       Step.registerDestroyedHandler,
       Step.registerEventMsgHandler],
    workerPool := workerPool,
    jobQueue := jobQueue,
    coreSdk := coreSdk,
    result := ⟨⟨coreSdk⟩⟩ }

/-- The runtime members of the ServiceWorkerFrontend object, as reachable by
a property lookup this[fn]: the three private fields and the three callable
members (the method initComponents and the two dispatch function fields). -/
inductive FrontendMember where
  | transportClient
  | jobQueue
  | coreSdk
  | initComponents
  | jobQueueDispatch
  | coreSdkDispatch

/-- Property lookup on the frontend object: which member a name resolves to. -/
def frontendMember : String → Option FrontendMember
  | "transportClient" => some FrontendMember.transportClient
  | "jobQueue" => some FrontendMember.jobQueue
  | "coreSdk" => some FrontendMember.coreSdk
  | "initComponents" => some FrontendMember.initComponents
  | "jobQueueDispatch" => some FrontendMember.jobQueueDispatch
  | "coreSdkDispatch" => some FrontendMember.coreSdkDispatch
  | _ => none

/-- Whether a member is a function, hence invocable as this[fn](...args). -/
def FrontendMember.callable : FrontendMember → Bool
  | FrontendMember.initComponents => true
  | FrontendMember.jobQueueDispatch => true
  | FrontendMember.coreSdkDispatch => true
  | _ => false

/-- What handling an inbound event message amounts to: either a member of
the frontend is invoked with the payload args, or the dynamic call fails at
runtime with a type error (this[fn] undefined or not a function). -/
inductive EventHandlingResult where
  | invoked (m : FrontendMember) (args : List Val)
  | typeError

/-- Embedding of the event_msg handler registered at line 54 of
src/unnamed/part_001: ({ fn, args }) => this[fn](...args). The name fn is
looked up dynamically on the frontend object; a callable member is invoked
with exactly args; anything else throws at runtime. -/
def handleEventMsg (fn : String) (args : List Val) : EventHandlingResult :=
  match frontendMember fn with
  | some m => if m.callable then EventHandlingResult.invoked m args else EventHandlingResult.typeError
  | none => EventHandlingResult.typeError

/-- Following the words of the spec, not the source: the explicit
event-name-to-handler table the spec prescribes, populated at construction
with the event-forwarding targets, namely the two dispatch members whose
calls re-emit events on their targets (the comment at line 53 of the source
says event messages are dispatch messages that call emit on their targets). -/
def specEventHandlerTable : List String :=
  ["jobQueueDispatch", "coreSdkDispatch"]

/-- The three concrete deployments the deploy switch can select
(deployMainnet, deployMainnetFork, deployDev). -/
inductive DeployTarget where
  | mainnet
  | mainnetFork
  | dev
deriving DecidableEq

/-- Embedding of the switch in function deploy
(src/yarn-project/blockchain/src/deploy/deploy_contracts.ts, lines 28 to 36):
chain id 1 selects the mainnet deployment, chain ids 0xa57ec and 0xdef the
mainnet-fork deployment, every other chain id the dev deployment. -/
def deploySelect (chainId : Int) : DeployTarget :=
  if chainId = 1 then DeployTarget.mainnet
  else if chainId = 0xa57ec ∨ chainId = 0xdef then DeployTarget.mainnetFork
  else DeployTarget.dev

/-- The signer object produced by getSigner: either a wallet made from the
private key, or signer 0 of the provider, wrapped in a NonceManager. -/
inductive EthSigner where
  | nonceManaged (wallet : Bool)

/-- The truthiness test JS applies to the host string argument in
if (!host): false for a missing value and for the empty string. -/
def strFalsy : Option String → Bool
  | none => true
  | some s => s == ""

/-- Embedding of getSigner (deploy_contracts.ts, lines 9 to 17): throws the
error ETHEREUM_HOST not set. when host is falsy, otherwise builds a signer
from the private key when one is given, else signer 0, under a NonceManager. -/
def getSigner (host : Option String) (privateKey : Option String) :
    Except String EthSigner :=
  if strFalsy host then Except.error "ETHEREUM_HOST not set."
  else Except.ok (EthSigner.nonceManaged privateKey.isSome)

/-- Network interactions deployContracts performs once it has a signer, in
program order: resolving the signer address, reading the chain id, and
running the selected deployment. -/
inductive NetworkAction where
  | getAddress
  | getChainId
  | runDeploy (target : DeployTarget)
deriving DecidableEq

/-- Embedding of deployContracts (deploy_contracts.ts, lines 39 to 86): it
first calls getSigner(host, privateKey); when that throws, the call fails
with the thrown error and no network interaction has been attempted. With a
signer it awaits the signer address, the chain id, and the deployment
selected by the chain id. We return the ordered network actions together
with the settlement. -/
def deployContracts (host : Option String) (privateKey : Option String)
    (chainId : Int) : List NetworkAction × Except String Unit :=
  match getSigner host privateKey with
  | Except.error e => ([], Except.error e)
  | Except.ok _ =>
    ([NetworkAction.getAddress, NetworkAction.getChainId,
      NetworkAction.runDeploy (deploySelect chainId)],
     Except.ok ())

end Aztec

namespace DefiForm

/-- An amount of an asset: the asset id and the value in base units
(the fields of Amount that validateDefiForm reads). -/
structure Amount where
  id : Nat
  baseUnits : Int
deriving DecidableEq

/-- The payload of a valid defi form: exactly the target deposit amount and
the fee amount (DefiComposerPayload). -/
structure DefiComposerPayload where
  targetDepositAmount : Amount
  feeAmount : Amount
deriving DecidableEq

/-- The settlement speed field of the form; opaque to the validation. -/
inductive DefiSettlementTime where
  | nextRollup
  | instant

/-- The raw form fields (DefiFormFields); opaque to the validation logic. -/
structure DefiFormFields where
  amountStr : String
  speed : DefiSettlementTime

/-- The deposit asset (RemoteAsset); opaque to the validation logic. -/
structure RemoteAsset where
  id : Nat

/-- The amount factory; the validation only tests its presence. -/
structure AmountFactory where
  present : Unit

/-- The input record of validateDefiForm
(src/zk-money/src/alt-model/defi/defi_form/defi_form_validation.ts,
lines 13 to 22), with every optional field an Option. -/
structure DefiFormValidationInput where
  fields : DefiFormFields
  amountFactory : Option AmountFactory
  depositAsset : RemoteAsset
  targetDepositAmount : Option Amount
  balanceInTargetAsset : Option Int
  feeAmount : Option Amount
  balanceInFeePayingAsset : Option Int
  transactionLimit : Option Int

/-- The result record of validateDefiForm (lines 24 to 36): every field the
function may leave unset is an Option, none standing for an absent field. -/
structure DefiFormValidationResult where
  loading : Option Bool
  unrecognisedTargetAmount : Option Bool
  insufficientTargetAssetBalance : Option Bool
  insufficientFeePayingAssetBalance : Option Bool
  mustAllowForFee : Option Bool
  beyondTransactionLimit : Option Bool
  noAmount : Option Bool
  isValid : Option Bool
  validPayload : Option DefiComposerPayload
  maxOutput : Option Int
  input : DefiFormValidationInput

/-- The result of the first early return: { loading: true, input }. -/
def loadingResult (input : DefiFormValidationInput) : DefiFormValidationResult :=
  { loading := some true, unrecognisedTargetAmount := none,
    insufficientTargetAssetBalance := none,
    insufficientFeePayingAssetBalance := none, mustAllowForFee := none,
    beyondTransactionLimit := none, noAmount := none, isValid := none,
    validPayload := none, maxOutput := none, input := input }

/-- The result of the second early return: { unrecognisedTargetAmount: true, input }. -/
def unrecognisedResult (input : DefiFormValidationInput) : DefiFormValidationResult :=
  { loading := none, unrecognisedTargetAmount := some true,
    insufficientTargetAssetBalance := none,
    insufficientFeePayingAssetBalance := none, mustAllowForFee := none,
    beyondTransactionLimit := none, noAmount := none, isValid := none,
    validPayload := none, maxOutput := none, input := input }

/-- Embedding of validateDefiForm (defi_form_validation.ts, lines 38 to 86),
faithful to the two early-return guards and the main computation. -/
def validateDefiForm (input : DefiFormValidationInput) : DefiFormValidationResult :=
  match input.amountFactory, input.feeAmount, input.balanceInTargetAsset,
      input.balanceInFeePayingAsset with
  | some _, some feeAmount, some balanceInTargetAsset, some balanceInFeePayingAsset =>
    match input.targetDepositAmount, input.transactionLimit with
    | some targetDepositAmount, some transactionLimit =>
      let targetAssetIsPayingFee := targetDepositAmount.id == feeAmount.id
      let feeInTargetAsset : Int :=
        if targetAssetIsPayingFee then feeAmount.baseUnits else 0
      let requiredInputInTargetAssetCoveringCosts :=
        targetDepositAmount.baseUnits + feeInTargetAsset
      let maxOutput := min (balanceInTargetAsset - feeInTargetAsset) transactionLimit
      let beyondTransactionLimit :=
        decide (targetDepositAmount.baseUnits > transactionLimit)
      let noAmount := decide (targetDepositAmount.baseUnits ≤ 0)
      let insufficientTargetAssetBalance :=
        decide (balanceInTargetAsset < requiredInputInTargetAssetCoveringCosts)
      let insufficientFeePayingAssetBalance :=
        decide (balanceInFeePayingAsset < feeAmount.baseUnits)
      let mustAllowForFee :=
        insufficientTargetAssetBalance &&
          decide (balanceInTargetAsset ≥ targetDepositAmount.baseUnits)
      let isValid :=
        !insufficientTargetAssetBalance && !insufficientFeePayingAssetBalance &&
          !beyondTransactionLimit && !noAmount
      let validPayload :=
        if isValid then
          some { targetDepositAmount := targetDepositAmount, feeAmount := feeAmount }
        else none
      { loading := none, unrecognisedTargetAmount := none,
        insufficientTargetAssetBalance := some insufficientTargetAssetBalance,
        insufficientFeePayingAssetBalance := some insufficientFeePayingAssetBalance,
        mustAllowForFee := some mustAllowForFee,
        beyondTransactionLimit := some beyondTransactionLimit,
        noAmount := some noAmount, isValid := some isValid,
        validPayload := validPayload, maxOutput := some maxOutput,
        input := input }
    | _, _ => unrecognisedResult input
  | _, _, _, _ => loadingResult input

/-- A fully-populated validation input used to exercise the main path of
validateDefiForm on concrete values. -/
def sampleInput : DefiFormValidationInput :=
  { fields := ⟨"5", DefiSettlementTime.nextRollup⟩,
    amountFactory := some ⟨()⟩,
    depositAsset := ⟨0⟩,
    targetDepositAmount := some ⟨0, 5⟩,
    balanceInTargetAsset := some 10,
    feeAmount := some ⟨0, 2⟩,
    balanceInFeePayingAsset := some 10,
    transactionLimit := some 100 }

end DefiForm

open Aztec

/-- Claim C1: for every options object passed to initComponents, the worker
pool is constructed with options.numWorkers slots when that field is present
and with the platform-reported default parallelism (getNumWorkers) when it is
absent; in particular an options object with numWorkers 4 yields a pool of
size 4 and an empty options object yields a pool of the default size. -/
theorem initComponents_workerPool_size (p : Nat) (t : TransportClient)
    (o : BananaCoreSdkOptions) :
    (ServiceWorkerFrontend.initComponents p t o).workerPool.size =
      (match o.numWorkers with
       | some n => n
       | none => getNumWorkers p) ∧
    (ServiceWorkerFrontend.initComponents p t ⟨some 4⟩).workerPool.size = 4 ∧
    (ServiceWorkerFrontend.initComponents p t ⟨none⟩).workerPool.size =
      getNumWorkers p := by
  refine ⟨?_, rfl, rfl⟩
  obtain ⟨nw⟩ := o
  cases nw <;> rfl

/-- Claim C4: the handler initComponents registers on the core sdk proxy for
the DESTROYED session-teardown event closes the transport client; it is the
unique listener registered on the proxy. -/
theorem initComponents_destroyed_closes_transport (p : Nat)
    (t : TransportClient) (o : BananaCoreSdkOptions) :
    (ServiceWorkerFrontend.initComponents p t o).coreSdk.listeners =
      [(SdkEvent.DESTROYED, HandlerAction.closeTransport)] :=
  rfl

/-- Claim C7: initComponents first issues the initialization request to the
backend over the transport, and only after the response of that request
arrives does it construct the local worker pool, the pooled compute wrappers
and the job-queue wiring: the trace starts with the request and its response,
and every construction step lies strictly after them. -/
theorem initComponents_request_precedes_construction (p : Nat)
    (t : TransportClient) (o : BananaCoreSdkOptions) :
    (ServiceWorkerFrontend.initComponents p t o).trace.take 2 =
      [Step.transportRequest "initComponents" [Val.options o],
       Step.responseReceived "initComponents"] ∧
    Step.constructWorkerPool (o.numWorkers.getD (getNumWorkers p)) ∈
      (ServiceWorkerFrontend.initComponents p t o).trace.drop 2 ∧
    Step.constructPedersen ∈ (ServiceWorkerFrontend.initComponents p t o).trace.drop 2 ∧
    Step.constructPippenger ∈ (ServiceWorkerFrontend.initComponents p t o).trace.drop 2 ∧
    Step.constructFftFactory ∈ (ServiceWorkerFrontend.initComponents p t o).trace.drop 2 ∧
    Step.constructJobQueueDispatch ∈ (ServiceWorkerFrontend.initComponents p t o).trace.drop 2 ∧
    Step.constructJobQueueWorker ∈ (ServiceWorkerFrontend.initComponents p t o).trace.drop 2 := by
  refine ⟨rfl, ?_, ?_, ?_, ?_, ?_, ?_⟩ <;>
    simp [ServiceWorkerFrontend.initComponents, List.mem_cons]

/-- Claim C3: every event payload received on the event channel is relayed
verbatim and re-emitted under the same name: when fn resolves to a callable
member of the frontend, the event_msg handler invokes exactly that member
with exactly the args sequence, unchanged and in order. -/
theorem event_msg_relayed_verbatim (fn : String) (args : List Val)
    (m : FrontendMember) (h : frontendMember fn = some m)
    (hc : m.callable = true) :
    handleEventMsg fn args = EventHandlingResult.invoked m args := by
  unfold handleEventMsg
  rw [h]
  simp [hc]

/-- Witness for event_msg_relayed_verbatim at the dispatch member
coreSdkDispatch with a two-element argument list. -/
theorem event_msg_relayed_verbatim_witness :
    handleEventMsg "coreSdkDispatch" [Val.str "emit", Val.num 7] =
      EventHandlingResult.invoked FrontendMember.coreSdkDispatch
        [Val.str "emit", Val.num 7] :=
  event_msg_relayed_verbatim "coreSdkDispatch" [Val.str "emit", Val.num 7]
    FrontendMember.coreSdkDispatch rfl rfl

/-- Counterexample to claim C2: the name initComponents is in no
event-name-to-handler table (the spec-prescribed table holds only the two
dispatch targets), yet the event_msg handler does not fail on it: it invokes
the member initComponents of the frontend. Handling succeeds by invoking an
arbitrary member instead of failing. -/
theorem event_msg_unknown_name_invoked :
    "initComponents" ∉ specEventHandlerTable ∧
    handleEventMsg "initComponents" [] =
      EventHandlingResult.invoked FrontendMember.initComponents [] := by
  constructor
  · simp [specEventHandlerTable]
  · rfl

/-- Amended claim C2: inbound event messages are dispatched by dynamic member
lookup on the frontend, this[fn](...args), with no explicit handler table:
a name resolving to no member of the frontend object fails with a runtime
type error, while every name resolving to a member is dispatched to that
member, invoked when it is callable and failing only when it is not. -/
theorem event_msg_dynamic_member_dispatch (fn : String) (args : List Val) :
    (frontendMember fn = none → handleEventMsg fn args = EventHandlingResult.typeError) ∧
    (∀ m, frontendMember fn = some m →
      handleEventMsg fn args =
        (if m.callable then EventHandlingResult.invoked m args
         else EventHandlingResult.typeError)) := by
  constructor
  · intro h
    unfold handleEventMsg
    rw [h]
  · intro m h
    unfold handleEventMsg
    rw [h]

/-- Witness for event_msg_dynamic_member_dispatch: an unknown name fails with
a type error, and the non-callable member jobQueue also fails. -/
theorem event_msg_dynamic_member_dispatch_witness :
    handleEventMsg "unknownEvent" [] = EventHandlingResult.typeError ∧
    handleEventMsg "jobQueue" [] = EventHandlingResult.typeError := by
  constructor
  · exact (event_msg_dynamic_member_dispatch "unknownEvent" []).1 rfl
  · have h := (event_msg_dynamic_member_dispatch "jobQueue" []).2
      FrontendMember.jobQueue rfl
    simpa using h

/-- Claim C5: initComponents resolves to an object whose single field holds
the session stub wrapping the core sdk proxy it wired; that session exposes
the forwarded method surface, each method call producing exactly one
transport request under coreSdkDispatch and settling with the response of
the transport, and it exposes the destroyed event, on which the teardown
handler is registered. -/
theorem initComponents_returns_session (p : Nat) (t : TransportClient)
    (o : BananaCoreSdkOptions) :
    (ServiceWorkerFrontend.initComponents p t o).result =
      ⟨⟨(ServiceWorkerFrontend.initComponents p t o).coreSdk⟩⟩ ∧
    (∀ fn args,
      (ServiceWorkerFrontend.initComponents p t o).result.coreSdk.call fn args =
        ([{ fn := "coreSdkDispatch", args := [Val.msg fn args] }],
         t.respond { fn := "coreSdkDispatch", args := [Val.msg fn args] })) ∧
    (SdkEvent.DESTROYED, HandlerAction.closeTransport) ∈
      (ServiceWorkerFrontend.initComponents p t o).result.coreSdk.events := by
  refine ⟨rfl, fun fn args => rfl, ?_⟩
  simp [ServiceWorkerFrontend.initComponents, CoreSdkClientStub.events,
    BananaCoreSdk.on]

/-- Claim C6: every method invocation on the job-queue dispatch object of the
frontend produces exactly one transport request whose function name is
jobQueueDispatch and whose single argument is the original message of the
call; the invocation settles with the response of that request, and an error
response is re-raised to the caller, never silently swallowed. -/
theorem jobQueue_dispatch_contract (p : Nat) (t : TransportClient)
    (o : BananaCoreSdkOptions) (fn : String) (args : List Val) :
    ((ServiceWorkerFrontend.initComponents p t o).jobQueue.call fn args).1 =
      [{ fn := "jobQueueDispatch", args := [Val.msg fn args] }] ∧
    ((ServiceWorkerFrontend.initComponents p t o).jobQueue.call fn args).2 =
      t.respond { fn := "jobQueueDispatch", args := [Val.msg fn args] } ∧
    (∀ e, t.respond { fn := "jobQueueDispatch", args := [Val.msg fn args] } =
        Except.error e →
      ((ServiceWorkerFrontend.initComponents p t o).jobQueue.call fn args).2 =
        Except.error e) := by
  refine ⟨rfl, rfl, fun e he => ?_⟩
  exact he

/-- Witness for jobQueue_dispatch_contract at a transport whose peer reports
an error: the single request has the required shape and the error settles
the call. -/
theorem jobQueue_dispatch_contract_witness :
    ((ServiceWorkerFrontend.initComponents 2
        ⟨fun _ => Except.error ⟨"Error", "pippenger failed"⟩⟩
        ⟨none⟩).jobQueue.call "getJob" []).1 =
      [{ fn := "jobQueueDispatch", args := [Val.msg "getJob" []] }] ∧
    ((ServiceWorkerFrontend.initComponents 2
        ⟨fun _ => Except.error ⟨"Error", "pippenger failed"⟩⟩
        ⟨none⟩).jobQueue.call "getJob" []).2 =
      Except.error ⟨"Error", "pippenger failed"⟩ := by
  have h := jobQueue_dispatch_contract 2
    ⟨fun _ => Except.error ⟨"Error", "pippenger failed"⟩⟩ ⟨none⟩ "getJob" []
  exact ⟨h.1, h.2.2 ⟨"Error", "pippenger failed"⟩ rfl⟩

/-- Claim C8: the deployment procedure resolves network identity to a
concrete contract wiring purely by chain id: chain id 1 selects the mainnet
deployment, chain ids 0xa57ec and 0xdef the mainnet-fork deployment, and
every other chain id the dev deployment. -/
theorem deploy_selects_by_chain_id :
    deploySelect 1 = DeployTarget.mainnet ∧
    deploySelect 0xa57ec = DeployTarget.mainnetFork ∧
    deploySelect 0xdef = DeployTarget.mainnetFork ∧
    ∀ c : Int, c ≠ 1 → c ≠ 0xa57ec → c ≠ 0xdef →
      deploySelect c = DeployTarget.dev := by
  refine ⟨by decide, by decide, by decide, fun c h1 h2 h3 => ?_⟩
  simp [deploySelect, h1, h2, h3]

/-- Witness for deploy_selects_by_chain_id at the ganache chain id 1337,
which matches none of the special cases and gets the dev deployment. -/
theorem deploy_selects_by_chain_id_witness :
    (1337 : Int) ≠ 1 ∧ deploySelect 1337 = DeployTarget.dev :=
  ⟨by decide,
   deploy_selects_by_chain_id.2.2.2 1337 (by decide) (by decide) (by decide)⟩

/-- Claim C10: every call of deployContracts in which the host argument is
absent or empty fails with the error ETHEREUM_HOST not set. (raised by
getSigner) before any network interaction is attempted: the action trace is
empty and the settlement is that error. -/
theorem deployContracts_missing_host_fails (host privateKey : Option String)
    (chainId : Int) (h : host = none ∨ host = some "") :
    deployContracts host privateKey chainId =
      ([], Except.error "ETHEREUM_HOST not set.") := by
  rcases h with h | h <;> subst h <;> rfl

/-- Witness for deployContracts_missing_host_fails at an absent host and at
an empty host string. -/
theorem deployContracts_missing_host_fails_witness :
    deployContracts none (some "f00d") 1 =
      ([], Except.error "ETHEREUM_HOST not set.") ∧
    deployContracts (some "") none 1337 =
      ([], Except.error "ETHEREUM_HOST not set.") :=
  ⟨deployContracts_missing_host_fails none (some "f00d") 1 (Or.inl rfl),
   deployContracts_missing_host_fails (some "") none 1337 (Or.inr rfl)⟩

theorem someBool_and_iff (a b c d : Bool) :
    (some (!a && !b && !c && !d) = some true) ↔
      (some a = some false ∧ some b = some false ∧
       some c = some false ∧ some d = some false) := by
  cases a <;> cases b <;> cases c <;> cases d <;> simp

theorem ifPayload_some_iff (v : Bool) (pl : DefiForm.DefiComposerPayload) :
    ((if v then some pl else none) = some pl) ↔ (some v = some true) := by
  cases v <;> simp

theorem ifPayload_isSome_iff (v : Bool) (pl : DefiForm.DefiComposerPayload) :
    ((if v then some pl else none).isSome = true) ↔ (some v = some true) := by
  cases v <;> simp

/-- Claim C9: for every fully-populated validation input (amountFactory,
feeAmount, both balances, transactionLimit and targetDepositAmount all
present), validateDefiForm returns isValid true if and only if none of
insufficientTargetAssetBalance, insufficientFeePayingAssetBalance,
beyondTransactionLimit and noAmount hold, and validPayload is defined,
containing exactly targetDepositAmount and feeAmount, if and only if
isValid is true. -/
theorem validateDefiForm_full_input (input : DefiForm.DefiFormValidationInput)
    (af : DefiForm.AmountFactory) (t f : DefiForm.Amount) (bT bF lim : Int)
    (h1 : input.amountFactory = some af)
    (h2 : input.targetDepositAmount = some t)
    (h3 : input.balanceInTargetAsset = some bT)
    (h4 : input.feeAmount = some f)
    (h5 : input.balanceInFeePayingAsset = some bF)
    (h6 : input.transactionLimit = some lim) :
    ((DefiForm.validateDefiForm input).isValid = some true ↔
      ((DefiForm.validateDefiForm input).insufficientTargetAssetBalance = some false ∧
       (DefiForm.validateDefiForm input).insufficientFeePayingAssetBalance = some false ∧
       (DefiForm.validateDefiForm input).beyondTransactionLimit = some false ∧
       (DefiForm.validateDefiForm input).noAmount = some false)) ∧
    ((DefiForm.validateDefiForm input).validPayload = some ⟨t, f⟩ ↔
      (DefiForm.validateDefiForm input).isValid = some true) ∧
    ((DefiForm.validateDefiForm input).validPayload.isSome = true ↔
      (DefiForm.validateDefiForm input).isValid = some true) := by
  obtain ⟨flds, afO, da, tO, bTO, fO, bFO, limO⟩ := input
  dsimp only at h1 h2 h3 h4 h5 h6
  subst h1 h2 h3 h4 h5 h6
  simp only [DefiForm.validateDefiForm]
  exact ⟨someBool_and_iff _ _ _ _, ifPayload_some_iff _ _, ifPayload_isSome_iff _ _⟩

/-- Witness for validateDefiForm_full_input at a concrete valid input: a
deposit of 5 base units of asset 0 with fee 2, balances 10 and limit 100. -/
theorem validateDefiForm_full_input_witness :
    (DefiForm.validateDefiForm DefiForm.sampleInput).isValid = some true ∧
    (DefiForm.validateDefiForm DefiForm.sampleInput).validPayload =
      some ⟨⟨0, 5⟩, ⟨0, 2⟩⟩ := by
  have h := validateDefiForm_full_input DefiForm.sampleInput
    ⟨()⟩ ⟨0, 5⟩ ⟨0, 2⟩ 10 10 100 rfl rfl rfl rfl rfl rfl
  have hv : (DefiForm.validateDefiForm DefiForm.sampleInput).isValid = some true :=
    h.1.mpr ⟨by decide, by decide, by decide, by decide⟩
  exact ⟨hv, h.2.1.mpr hv⟩
